import Mathlib

/-!
A shallow embedding of the hot-reload bridge in codemcp/hot_reload_entry.py:
the HotReloadManager facade (start / stop / call_tool), the background worker
_run_manager_task that owns the child session and drains the request queue,
and the .hot_reload marker-file check.  Python floats (timeouts, mtimes) are
modelled as rationals; asyncio futures as single-assignment option cells; the
asyncio.Queue as a Lean list in enqueue order (asyncio.Queue is FIFO).
-/

namespace HotReload

/-- The keyword-argument mapping passed to the codemcp tool; the only value
the bridge itself inspects (the subtool name) is a string. -/
abbrev ToolArgs := List (String × String)

/-- The Python expression tool_args.get("subtool", "unknown") used in the
worker's logging and timeout message (lines 248, 287). -/
def subtoolOf (args : ToolArgs) : String :=
  (args.lookup "subtool").getD "unknown"

/-- The tool_info string of call_tool (line 154). -/
def toolInfo (args : ToolArgs) : String :=
  "subtool=" ++ subtoolOf args

/-- The exceptions that cross the bridge.  The code raises RuntimeError for
child-reported errors, timeouts and the missing-queue guard; a failed stdio
connect or session.initialize handshake raises the client library's connect
error; cancellation has its own base class; anything else is otherError. -/
inductive PyError
  | runtimeError (msg : String)
  | connectError (msg : String)
  | cancelledError
  | otherError (msg : String)
deriving DecidableEq

/-- One element of a result's content list (mcp.types): a TextContent
carrying text, or any non-text content item. -/
inductive ContentItem
  | textContent (text : String)
  | otherItem
deriving DecidableEq

/-- The content field of a CallToolResult (line 23, a union of str, a list
of TextContent, and anything): a plain string, a list of content items, or
any other value. -/
inductive Content
  | str (s : String)
  | items (l : List ContentItem)
  | otherContent
deriving DecidableEq

/-- The CallToolResult protocol (lines 19-23): the isError flag plus the
content payload. -/
structure CallToolResult where
  isError : Bool
  content : Content
deriving DecidableEq

/-- A value stored in a completion future by set_result: the stop
acknowledgement True (line 241) or a result's content (line 282). -/
inductive PyValue
  | boolTrue
  | content (c : Content)
deriving DecidableEq

/-- The resolved state of an asyncio future: set_result, set_exception, or
cancelled (asyncio.wait_for cancels a future it gave up waiting on). -/
inductive Resolution
  | ok (v : PyValue)
  | error (e : PyError)
  | cancelled
deriving DecidableEq

/-- An asyncio future as a single-assignment cell: none while pending, some
resolution once done. -/
abbrev Slot := Option Resolution

/-- The future.done() test used in every resolution guard. -/
def futureDone (fut : Slot) : Bool := fut.isSome

/-- The guard pattern around every resolution in the worker (lines 240-241,
271-272, 275-278, 281-282, 285-288, 291-292, 296-297): set_result or
set_exception only if not future.done(), so an attempt on a done future is
a silent no-op. -/
def setIfNotDone (fut : Slot) (r : Resolution) : Slot :=
  if futureDone fut then fut else some r

/-- The internal per-call timeout on session.call_tool, line 258. -/
def internalCallTimeout : ℚ := 25

/-- The caller-facing timeout on awaiting the response future, line 187. -/
def responseTimeout : ℚ := 30

/-- The marker-file check _check_hot_reload_file (lines 63-91) as a pure
function of the filesystem view (some mtime when .hot_reload exists, none
when absent) and the remembered _last_hot_reload_mtime; returns the reload
decision together with the new remembered mtime. -/
def check_hot_reload_file (fs : Option ℚ) (last : Option ℚ) : Bool × Option ℚ :=
  match fs with
  | none =>
    match last with
    | some _ => (true, none)
    | none => (false, none)
  | some currentMtime =>
    match last with
    | none => (false, some currentMtime)
    | some lastMtime =>
      if currentMtime > lastMtime then (true, some currentMtime)
      else (false, some lastMtime)

/-- What the child does for one dispatched call: replies after some
duration, raises an exception, or hangs past any timeout. -/
inductive ChildBehavior
  | replies (duration : ℚ) (r : CallToolResult)
  | raises (e : PyError)
  | hangs
deriving DecidableEq

/-- The outcome of awaiting session.call_tool under the internal timeout
(lines 254-259): a result, an asyncio.TimeoutError, or an exception. -/
inductive InvokeOutcome
  | result (r : CallToolResult)
  | timeout
  | exn (e : PyError)
deriving DecidableEq

/-- The child invocation wrapped in wait_for with the 25-unit internal
timeout: a reply within the bound is delivered, a slower or hanging child
becomes asyncio.TimeoutError, a raising child propagates its exception. -/
def invokeWithTimeout (b : ChildBehavior) : InvokeOutcome :=
  match b with
  | .replies d r => if d ≤ internalCallTimeout then .result r else .timeout
  | .raises e => .exn e
  | .hangs => .timeout

/-- One call command as the worker sees it: the tool arguments together with
how the child behaves on this dispatch. -/
structure CallEvent where
  args : ToolArgs
  behavior : ChildBehavior
deriving DecidableEq

/-- A command dequeued from the request queue: the first two components of
the tuples ("stop", None, future) and ("call", kwargs, future). -/
inductive QueueItem
  | stopCmd
  | callCmd (ev : CallEvent)
deriving DecidableEq

/-- True exactly for the stop command. -/
def isStopItem : QueueItem → Bool
  | .stopCmd => true
  | .callCmd _ => false

/-- The arguments a queue item sends to the child: a call command is always
dispatched via session.call_tool (line 254) whatever its future's state; the
stop command dispatches nothing. -/
def callArgs : QueueItem → Option ToolArgs
  | .stopCmd => none
  | .callCmd ev => some ev.args

/-- The error decode for an isError result (the match on result.content,
lines 268-278): a single TextContent yields RuntimeError of its text; every
other shape yields the fallback RuntimeError "Unknown error". -/
def errorFromContent : Content → PyError
  | .items [.textContent err] => .runtimeError err
  | _ => .runtimeError "Unknown error"

/-- The resolution a processed call command carries to its future (lines
251-292): the successful result's content, the decoded child error, the
internal-timeout RuntimeError, or the propagated exception. -/
def callResolution (ev : CallEvent) : Resolution :=
  match invokeWithTimeout ev.behavior with
  | .result r =>
    if r.isError then .error (errorFromContent r.content)
    else .ok (.content r.content)
  | .timeout => .error (.runtimeError ("Timeout calling " ++ subtoolOf ev.args))
  | .exn e => .error e

/-- Processing of one dequeued command (lines 237-297): resolve its future
through the done-guard; the boolean says whether the drain loop breaks
(only the stop command breaks it, line 243). -/
def processCommand (fut : Slot) : QueueItem → Slot × Bool
  | .stopCmd => (setIfNotDone fut (.ok .boolTrue), true)
  | .callCmd ev => (setIfNotDone fut (callResolution ev), false)

/-- The drain loop (lines 228-305) run over the sequence of commands the
queue delivers, each paired with its future's state at dequeue time.
Returns the final state of every future (commands left behind after a stop
keep their futures untouched) and the argument mappings dispatched to the
child, in dispatch order.  The 60-unit idle poll on the queue (line 233)
only loops again and is invisible here. -/
def drainLoop : List (QueueItem × Slot) → List Slot × List ToolArgs
  | [] => ([], [])
  | (it, fut) :: rest =>
    let step := processCommand fut it
    if step.2 then
      (step.1 :: rest.map Prod.snd, [])
    else
      let r := drainLoop rest
      (step.1 :: r.1, (callArgs it).toList ++ r.2)

/-- Whether the nested stdio_client, ClientSession and session.initialize
startup (lines 216-225) succeeded or raised. -/
inductive StartOutcome
  | ok
  | connectFailure (e : PyError)
deriving DecidableEq

/-- The whole worker task _run_manager_task (lines 194-310): on successful
startup it drains the queue; a startup failure is caught by the outermost
except clause (line 309), logged and swallowed, so the task terminates
having dispatched nothing and touched no queued future. -/
def run_manager_task (st : StartOutcome) (queue : List (QueueItem × Slot)) :
    List Slot × List ToolArgs :=
  match st with
  | .ok => drainLoop queue
  | .connectFailure _ => (queue.map Prod.snd, [])

/-- The status of the worker asyncio task: running, or done (a finished and
a cancelled task both make task.done() true). -/
inductive TaskStatus
  | running
  | done
deriving DecidableEq

/-- A command as recorded in the facade's request queue. -/
inductive QueuedCommand
  | stopCommand
  | callCommand (args : ToolArgs)
deriving DecidableEq

/-- The mutable fields of HotReloadManager (lines 51-61): the worker task,
the request queue (none once cleared or never created; the list is the
queue's contents in enqueue order), and the remembered marker mtime. -/
structure ManagerState where
  task : Option TaskStatus
  requestQueue : Option (List QueuedCommand)
  lastMtime : Option ℚ
deriving DecidableEq

/-- start (lines 93-105): only when the task is absent or done does it
create a fresh queue and launch a new worker task. -/
def start (s : ManagerState) : ManagerState :=
  if s.task = none ∨ s.task = some TaskStatus.done then
    { s with requestQueue := some [], task := some TaskStatus.running }
  else s

/-- How the awaits inside stop() turn out: both joins complete within their
5-unit bounds; the soft path times out, escalating to task.cancel() and one
more 1-unit join whose TimeoutError or CancelledError is swallowed (lines
138-145); or some other exception is caught and the task cancelled (lines
146-150). -/
inductive StopEnv
  | joinOk
  | softTimeout
  | otherFailure
deriving DecidableEq

/-- stop (lines 107-150): a no-op unless a running task and a queue both
exist; otherwise it clears the queue reference before any await, sends the
stop command on the local queue reference, and joins the worker, catching
asyncio.TimeoutError (escalating to cancel) and every other exception.  The
boolean records whether stop raised to its caller; every path returns
false.  In the otherFailure path cancellation is only requested, not
awaited, so the task field is left as it was. -/
def stop (s : ManagerState) (env : StopEnv) : ManagerState × Bool :=
  if s.task = some TaskStatus.running ∧ s.requestQueue ≠ none then
    let s1 : ManagerState := { s with requestQueue := none }
    match env with
    | .joinOk => ({ s1 with task := some TaskStatus.done }, false)
    | .softTimeout => ({ s1 with task := some TaskStatus.done }, false)
    | .otherFailure => (s1, false)
  else (s, false)

/-- What a caller of call_tool ultimately observes: a returned value or a
raised exception. -/
inductive CallerOutcome
  | value (v : PyValue)
  | raised (e : PyError)
deriving DecidableEq

/-- Delivery of a done future to its awaiting caller: set_result returns the
value, set_exception re-raises, a cancelled future raises CancelledError. -/
def deliverResolution : Resolution → CallerOutcome
  | .ok v => .value v
  | .error e => .raised e
  | .cancelled => .raised .cancelledError

/-- How the environment treats this call's response future within the
caller's wait: resolves it at some time, or never does. -/
inductive AwaitEnv
  | resolvedAt (t : ℚ) (r : Resolution)
  | never
deriving DecidableEq

/-- call_tool (lines 152-192) as a function of the manager state, the marker
file view, the arguments, and the environment's behavior for the embedded
stop and for this call's future: run the marker check first (always — its
memory update happens whether or not anything trips), stop a running task
when the check trips, start when the task is absent or done or the queue is
missing, then enqueue the call command and await its future under the
30-unit timeout — or raise the missing-queue RuntimeError (line 182) when
no queue exists even after the start step. -/
def call_tool (s : ManagerState) (fs : Option ℚ) (args : ToolArgs)
    (stopEnv : StopEnv) (awaitEnv : AwaitEnv) : CallerOutcome × ManagerState :=
  let checked := check_hot_reload_file fs s.lastMtime
  let s0 : ManagerState := { s with lastMtime := checked.2 }
  let s1 := if checked.1 ∧ s0.task = some TaskStatus.running
    then (stop s0 stopEnv).1 else s0
  let s2 := if s1.task = none ∨ s1.task = some TaskStatus.done ∨ s1.requestQueue = none
    then start s1 else s1
  match s2.requestQueue with
  | none => (.raised (.runtimeError "Request queue is None after starting the task"), s2)
  | some q =>
    let s3 : ManagerState := { s2 with requestQueue := some (q ++ [.callCommand args]) }
    match awaitEnv with
    | .resolvedAt t r =>
      if t < responseTimeout then (deliverResolution r, s3)
      else (.raised (.runtimeError ("Timeout waiting for response for " ++ toolInfo args)), s3)
    | .never =>
      (.raised (.runtimeError ("Timeout waiting for response for " ++ toolInfo args)), s3)

/-- The caller's await of its response future seen against the final state
of that future once the worker task has terminated: a future the dead task
never resolved can only end in the 30-unit timeout, raising the timeout
RuntimeError (lines 190-192); a resolved future delivers its resolution. -/
def callerView (subtool : String) : Slot → CallerOutcome
  | none => .raised (.runtimeError ("Timeout waiting for response for subtool=" ++ subtool))
  | some r => deliverResolution r

theorem setIfNotDone_done (v r : Resolution) : setIfNotDone (some v) r = some v := rfl

theorem setIfNotDone_pending (r : Resolution) : setIfNotDone none r = some r := rfl

theorem processCommand_done (v : Resolution) (it : QueueItem) :
    (processCommand (some v) it).1 = some v := by
  cases it <;> rfl

theorem drainLoop_nil : drainLoop [] = ([], []) := rfl

theorem drainLoop_cons_stop (fut : Slot) (rest : List (QueueItem × Slot)) :
    drainLoop ((QueueItem.stopCmd, fut) :: rest)
      = (setIfNotDone fut (.ok .boolTrue) :: rest.map Prod.snd, []) := rfl

theorem drainLoop_cons_call (ev : CallEvent) (fut : Slot)
    (rest : List (QueueItem × Slot)) :
    drainLoop ((QueueItem.callCmd ev, fut) :: rest)
      = (setIfNotDone fut (callResolution ev) :: (drainLoop rest).1,
         ev.args :: (drainLoop rest).2) := rfl

/-- Claim C2: the marker check implements exactly the five-way stateful case
analysis — absent and previously seen clears the memory and returns true;
absent and never seen returns false; present and never seen records the
mtime and returns false; present with strictly newer mtime records it and
returns true; present with equal or older mtime keeps the memory and
returns false. -/
theorem check_hot_reload_file_cases (m l : ℚ) :
    check_hot_reload_file none (some l) = (true, none)
    ∧ check_hot_reload_file none none = (false, none)
    ∧ check_hot_reload_file (some m) none = (false, some m)
    ∧ (l < m → check_hot_reload_file (some m) (some l) = (true, some m))
    ∧ (m ≤ l → check_hot_reload_file (some m) (some l) = (false, some l)) := by
  refine ⟨rfl, rfl, rfl, ?_, ?_⟩
  · intro h
    simp [check_hot_reload_file, h]
  · intro h
    simp [check_hot_reload_file, not_lt.mpr h]

/-- Concrete instantiation of the C2 theorem at mtimes 2 over 1 (strictly
newer) and 1 over 2 (older). -/
theorem check_hot_reload_file_cases_witness :
    check_hot_reload_file (some 2) (some 1) = (true, some 2)
    ∧ check_hot_reload_file (some 1) (some 2) = (false, some 2) :=
  ⟨(check_hot_reload_file_cases 2 1).2.2.2.1 (by decide),
   (check_hot_reload_file_cases 1 2).2.2.2.2 (by decide)⟩

/-- Claim C7: the internal 25-unit timeout on the child invocation is
strictly shorter than the 30-unit caller-facing timeout on the response
future. -/
theorem internal_timeout_lt_response_timeout :
    internalCallTimeout < responseTimeout
    ∧ internalCallTimeout = 25 ∧ responseTimeout = 30 :=
  ⟨by decide, rfl, rfl⟩

theorem errorFromContent_fallback (c : Content)
    (hc : ∀ u : String, c ≠ Content.items [ContentItem.textContent u]) :
    errorFromContent c = .runtimeError "Unknown error" := by
  match c with
  | .str s => rfl
  | .otherContent => rfl
  | .items [] => rfl
  | .items [.textContent u] => exact absurd rfl (hc u)
  | .items [.otherItem] => rfl
  | .items (.textContent u :: y :: tl) => rfl
  | .items (.otherItem :: y :: tl) => rfl

/-- Claim C4: an isError child response whose content is a single text item
with text t resolves the call's future with RuntimeError carrying exactly t;
an isError response of any other content shape resolves it with the explicit
fallback RuntimeError "Unknown error". -/
theorem error_payload_decode (args : ToolArgs) (d : ℚ) (t : String) (c : Content)
    (hd : d ≤ internalCallTimeout)
    (hc : ∀ u : String, c ≠ Content.items [ContentItem.textContent u]) :
    (run_manager_task .ok
        [(QueueItem.callCmd ⟨args, .replies d ⟨true, .items [.textContent t]⟩⟩, none)]).1
      = [some (.error (.runtimeError t))]
    ∧ (run_manager_task .ok
        [(QueueItem.callCmd ⟨args, .replies d ⟨true, c⟩⟩, none)]).1
      = [some (.error (.runtimeError "Unknown error"))] := by
  constructor
  · simp [run_manager_task, drainLoop_cons_call, drainLoop_nil, callResolution,
      invokeWithTimeout, hd, errorFromContent, setIfNotDone, futureDone]
  · simp [run_manager_task, drainLoop_cons_call, drainLoop_nil, callResolution,
      invokeWithTimeout, hd, errorFromContent_fallback c hc, setIfNotDone, futureDone]

/-- Concrete instantiation of the C4 theorem: duration 1, error text
"file not found: x", and a plain-string payload as the other shape. -/
theorem error_payload_decode_witness :
    (run_manager_task .ok
        [(QueueItem.callCmd
            ⟨[], .replies 1 ⟨true, .items [.textContent "file not found: x"]⟩⟩, none)]).1
      = [some (.error (.runtimeError "file not found: x"))]
    ∧ (run_manager_task .ok
        [(QueueItem.callCmd ⟨[], .replies 1 ⟨true, .str "oops"⟩⟩, none)]).1
      = [some (.error (.runtimeError "Unknown error"))] :=
  error_payload_decode [] 1 "file not found: x" (.str "oops") (by decide)
    (fun u h => Content.noConfusion h)

theorem drainLoop_done_slot (q : List (QueueItem × Slot)) (i : ℕ) (it : QueueItem)
    (v : Resolution) (h : q[i]? = some (it, some v)) :
    ((drainLoop q).1)[i]? = some (some v) := by
  induction q generalizing i with
  | nil => simp at h
  | cons p rest ih =>
    obtain ⟨it0, fut0⟩ := p
    cases i with
    | zero =>
      simp only [List.getElem?_cons_zero, Option.some.injEq, Prod.mk.injEq] at h
      obtain ⟨h1, h2⟩ := h
      subst h1 h2
      cases it0 with
      | stopCmd => simp [drainLoop_cons_stop, setIfNotDone_done]
      | callCmd ev => simp [drainLoop_cons_call, setIfNotDone_done]
    | succ n =>
      simp only [List.getElem?_cons_succ] at h
      cases it0 with
      | stopCmd =>
        simp only [drainLoop_cons_stop, List.getElem?_cons_succ]
        rw [List.getElem?_map _ rest n, h]
        rfl
      | callCmd ev =>
        simp only [drainLoop_cons_call, List.getElem?_cons_succ]
        exact ih n h

/-- Claim C5: a completion future that is already resolved when its command
is processed is never touched again — whatever the command (call or stop),
whatever the startup outcome, and whatever resolution the worker would
write (success, child error, timeout error, or stop acknowledgement), the
attempt is a silent no-op and the future keeps its first value. -/
theorem resolve_at_most_once (st : StartOutcome) (q : List (QueueItem × Slot))
    (i : ℕ) (it : QueueItem) (v : Resolution)
    (h : q[i]? = some (it, some v)) :
    ((run_manager_task st q).1)[i]? = some (some v) := by
  cases st with
  | ok => exact drainLoop_done_slot q i it v h
  | connectFailure e =>
    simp only [run_manager_task]
    rw [List.getElem?_map _ q i, h]
    rfl

/-- Concrete instantiation of the C5 theorem: a stop command whose future
was already resolved with a value keeps that value through the stop
acknowledgement attempt. -/
theorem resolve_at_most_once_witness :
    ((run_manager_task .ok
        [(QueueItem.stopCmd, some (.ok (.content (.str "early"))))]).1)[0]?
      = some (some (.ok (.content (.str "early")))) :=
  resolve_at_most_once .ok _ 0 .stopCmd (.ok (.content (.str "early"))) rfl

theorem drainLoop_calls_eq (q : List (QueueItem × Slot)) :
    (drainLoop q).2
      = ((q.map Prod.fst).takeWhile (fun it => !(isStopItem it))).filterMap callArgs := by
  induction q with
  | nil => rfl
  | cons p rest ih =>
    obtain ⟨it, fut⟩ := p
    cases it with
    | stopCmd =>
      simp [drainLoop_cons_stop, List.takeWhile_cons, isStopItem]
    | callCmd ev =>
      simp [drainLoop_cons_call, List.takeWhile_cons, isStopItem, callArgs, ih]

theorem drainLoop_no_stop_slot (q : List (QueueItem × Slot)) (i : ℕ)
    (hns : ∀ j : ℕ, j < i → ∀ p : QueueItem × Slot, q[j]? = some p → isStopItem p.1 = false) :
    ((drainLoop q).1)[i]? = (q[i]?.map fun p => (processCommand p.2 p.1).1) := by
  induction q generalizing i with
  | nil => simp [drainLoop_nil]
  | cons p rest ih =>
    obtain ⟨it, fut⟩ := p
    cases i with
    | zero =>
      cases it with
      | stopCmd => simp [drainLoop_cons_stop, processCommand]
      | callCmd ev => simp [drainLoop_cons_call, processCommand]
    | succ n =>
      have hit : isStopItem it = false :=
        hns 0 (Nat.succ_pos n) (it, fut) List.getElem?_cons_zero
      cases it with
      | stopCmd => simp [isStopItem] at hit
      | callCmd ev =>
        simp only [drainLoop_cons_call, List.getElem?_cons_succ]
        exact ih n (fun j hj p hp =>
          hns (j + 1) (Nat.succ_lt_succ hj) p (by simpa using hp))

/-- Claim C6: commands are dispatched to the child in exactly queue
(enqueue) order — the dispatched argument list equals the call arguments of
the queued commands up to the first stop, in order — and there is no
cross-talk: as long as no stop command precedes it, each command's future is
resolved purely from that command's own entry. -/
theorem fifo_dispatch_no_crosstalk (q : List (QueueItem × Slot)) :
    (run_manager_task .ok q).2
      = ((q.map Prod.fst).takeWhile (fun it => !(isStopItem it))).filterMap callArgs
    ∧ ∀ i : ℕ,
        (∀ j : ℕ, j < i → ∀ p : QueueItem × Slot, q[j]? = some p → isStopItem p.1 = false) →
        ((run_manager_task .ok q).1)[i]? = (q[i]?.map fun p => (processCommand p.2 p.1).1) :=
  ⟨drainLoop_calls_eq q, fun i hns => drainLoop_no_stop_slot q i hns⟩

/-- Concrete instantiation of the C6 theorem on a two-call queue: dispatch
order is the enqueue order of the two argument maps, and the second call's
future is resolved from its own entry. -/
theorem fifo_dispatch_no_crosstalk_witness :
    (run_manager_task .ok
        [(QueueItem.callCmd ⟨[("subtool", "A")], .replies 1 ⟨false, .str "okA"⟩⟩, none),
         (QueueItem.callCmd ⟨[("subtool", "B")], .replies 2 ⟨false, .str "okB"⟩⟩, none)]).2
      = (([(QueueItem.callCmd ⟨[("subtool", "A")], .replies 1 ⟨false, .str "okA"⟩⟩,
            (none : Slot)),
           (QueueItem.callCmd ⟨[("subtool", "B")], .replies 2 ⟨false, .str "okB"⟩⟩,
            (none : Slot))].map
            Prod.fst).takeWhile (fun it => !(isStopItem it))).filterMap callArgs
    ∧ ((run_manager_task .ok
        [(QueueItem.callCmd ⟨[("subtool", "A")], .replies 1 ⟨false, .str "okA"⟩⟩, none),
         (QueueItem.callCmd ⟨[("subtool", "B")], .replies 2 ⟨false, .str "okB"⟩⟩, none)]).1)[1]?
      = ([(QueueItem.callCmd ⟨[("subtool", "A")], .replies 1 ⟨false, .str "okA"⟩⟩,
           (none : Slot)),
          (QueueItem.callCmd ⟨[("subtool", "B")], .replies 2 ⟨false, .str "okB"⟩⟩,
           (none : Slot))][1]?.map fun p => (processCommand p.2 p.1).1) := by
  refine ⟨(fifo_dispatch_no_crosstalk _).1, (fifo_dispatch_no_crosstalk _).2 1 ?_⟩
  intro j hj p hp
  have hj0 : j = 0 := Nat.lt_one_iff.mp hj
  subst hj0
  simp only [List.getElem?_cons_zero, Option.some.injEq] at hp
  rw [← hp]
  rfl

theorem drainLoop_append_no_stop (pre rest : List (QueueItem × Slot))
    (h : ∀ p ∈ pre, isStopItem p.1 = false) :
    drainLoop (pre ++ rest)
      = ((pre.map fun p => (processCommand p.2 p.1).1) ++ (drainLoop rest).1,
         (pre.map Prod.fst).filterMap callArgs ++ (drainLoop rest).2) := by
  induction pre with
  | nil => simp
  | cons p pre ih =>
    obtain ⟨it, fut⟩ := p
    have hit : isStopItem it = false := h _ (List.mem_cons_self _ _)
    cases it with
    | stopCmd => simp [isStopItem] at hit
    | callCmd ev =>
      rw [List.cons_append, drainLoop_cons_call,
        ih (fun p hp => h p (List.mem_cons_of_mem _ hp))]
      simp [processCommand, callArgs]

/-- Claim C3: a call whose child invocation exceeds the internal timeout has
its future resolved with the timeout RuntimeError, the drain loop continues
in the same run, and an immediately following successful call against the
same still-alive session is dispatched and resolved with its own result. -/
theorem timeout_call_keeps_session (pre rest q : List (QueueItem × Slot))
    (argsT argsS : ToolArgs) (bT : ChildBehavior) (d : ℚ) (rS : CallToolResult)
    (hq : q = pre ++ ((QueueItem.callCmd ⟨argsT, bT⟩, none)
        :: (QueueItem.callCmd ⟨argsS, .replies d rS⟩, none) :: rest))
    (hpre : ∀ p ∈ pre, isStopItem p.1 = false)
    (hT : invokeWithTimeout bT = .timeout)
    (hd : d ≤ internalCallTimeout) (hr : rS.isError = false) :
    ((run_manager_task .ok q).1)[pre.length]?
      = some (some (.error (.runtimeError ("Timeout calling " ++ subtoolOf argsT))))
    ∧ ((run_manager_task .ok q).1)[pre.length + 1]?
      = some (some (.ok (.content rS.content)))
    ∧ argsS ∈ (run_manager_task .ok q).2 := by
  subst hq
  have hrw := drainLoop_append_no_stop pre
    ((QueueItem.callCmd ⟨argsT, bT⟩, none)
      :: (QueueItem.callCmd ⟨argsS, .replies d rS⟩, none) :: rest) hpre
  have hlen : (pre.map fun p => (processCommand p.2 p.1).1).length = pre.length :=
    List.length_map _ _
  have hresT : callResolution ⟨argsT, bT⟩
      = .error (.runtimeError ("Timeout calling " ++ subtoolOf argsT)) := by
    simp [callResolution, hT]
  have hresS : callResolution ⟨argsS, .replies d rS⟩ = .ok (.content rS.content) := by
    simp [callResolution, invokeWithTimeout, hd, hr]
  refine ⟨?_, ?_, ?_⟩
  · show ((run_manager_task .ok _).1)[pre.length]? = _
    simp only [run_manager_task, hrw]
    rw [List.getElem?_append_right (by omega : (pre.map fun p => (processCommand p.2 p.1).1).length ≤ pre.length)]
    simp [hlen, drainLoop_cons_call, hresT, setIfNotDone_pending]
  · simp only [run_manager_task, hrw]
    rw [List.getElem?_append_right (by omega : (pre.map fun p => (processCommand p.2 p.1).1).length ≤ pre.length + 1)]
    simp [hlen, drainLoop_cons_call, hresS, setIfNotDone_pending]
  · simp only [run_manager_task, hrw]
    simp [drainLoop_cons_call]

/-- Concrete instantiation of the C3 theorem: a hanging child call followed
by a successful one on an otherwise empty queue. -/
theorem timeout_call_keeps_session_witness :
    ((run_manager_task .ok
        [(QueueItem.callCmd ⟨[("subtool", "slow")], .hangs⟩, none),
         (QueueItem.callCmd ⟨[("subtool", "fast")], .replies 1 ⟨false, .str "ok"⟩⟩,
          none)]).1)[0]?
      = some (some (.error (.runtimeError ("Timeout calling " ++ subtoolOf [("subtool", "slow")]))))
    ∧ ((run_manager_task .ok
        [(QueueItem.callCmd ⟨[("subtool", "slow")], .hangs⟩, none),
         (QueueItem.callCmd ⟨[("subtool", "fast")], .replies 1 ⟨false, .str "ok"⟩⟩,
          none)]).1)[0 + 1]?
      = some (some (.ok (.content (Content.str "ok"))))
    ∧ [("subtool", "fast")] ∈ (run_manager_task .ok
        [(QueueItem.callCmd ⟨[("subtool", "slow")], .hangs⟩, none),
         (QueueItem.callCmd ⟨[("subtool", "fast")], .replies 1 ⟨false, .str "ok"⟩⟩,
          none)]).2 :=
  timeout_call_keeps_session [] []
    [(QueueItem.callCmd ⟨[("subtool", "slow")], .hangs⟩, none),
     (QueueItem.callCmd ⟨[("subtool", "fast")], .replies 1 ⟨false, .str "ok"⟩⟩, none)]
    [("subtool", "slow")] [("subtool", "fast")] .hangs 1 ⟨false, .str "ok"⟩
    rfl (by simp) rfl (by decide) rfl

/-- Claim C1 counterexample: against the claim, a failed child handshake
does not surface as a ConnectError on the first call after start — the
worker swallows the exception and dies, the call's future is never
resolved, and the caller observes the outer-timeout RuntimeError instead. -/
theorem connect_failure_counterexample :
    callerView "ReadFile"
        (((run_manager_task (.connectFailure (.connectError "session.initialize failed"))
            [(QueueItem.callCmd ⟨[("subtool", "ReadFile")], .replies 1 ⟨false, .str "ok"⟩⟩,
              none)]).1).headD none)
      = .raised (.runtimeError "Timeout waiting for response for subtool=ReadFile")
    ∧ callerView "ReadFile"
        (((run_manager_task (.connectFailure (.connectError "session.initialize failed"))
            [(QueueItem.callCmd ⟨[("subtool", "ReadFile")], .replies 1 ⟨false, .str "ok"⟩⟩,
              none)]).1).headD none)
      ≠ .raised (.connectError "session.initialize failed") := by
  constructor
  · rfl
  · intro h
    exact PyError.noConfusion (CallerOutcome.raised.inj h)

/-- Claim C1 as amended: a child start or handshake failure is fatal to the
worker task — it terminates having dispatched no command and resolved no
future — and the first call enqueued after the start is observed by its
caller as the outer-timeout RuntimeError, not as the connect error. -/
theorem connect_failure_is_fatal (e : PyError) (q : List (QueueItem × Slot))
    (subtool : String) :
    run_manager_task (.connectFailure e) q = (q.map Prod.snd, [])
    ∧ callerView subtool none
      = .raised (.runtimeError ("Timeout waiting for response for subtool=" ++ subtool)) :=
  ⟨rfl, rfl⟩

/-- Claim C8: stop is a no-op returning without exception whenever no
running task or no queue reference exists, and stop never raises to its
caller on any path, the soft-timeout escalation to a forced cancel and the
generic-exception path included. -/
theorem stop_idle_noop_never_raises (s : ManagerState) (env : StopEnv) :
    (s.task ≠ some TaskStatus.running ∨ s.requestQueue = none → stop s env = (s, false))
    ∧ (stop s env).2 = false := by
  constructor
  · intro h
    have hcond : ¬ (s.task = some TaskStatus.running ∧ s.requestQueue ≠ none) := by
      rcases h with h | h
      · exact fun hc => h hc.1
      · exact fun hc => hc.2 h
    simp [stop, hcond]
  · unfold stop
    split
    · cases env <;> rfl
    · rfl

/-- Concrete instantiation of the C8 theorem: stop on a state with a done
task is a no-op even on the soft-timeout escalation path. -/
theorem stop_idle_noop_never_raises_witness :
    stop ⟨some TaskStatus.done, some [], none⟩ StopEnv.softTimeout
      = (⟨some TaskStatus.done, some [], none⟩, false) :=
  (stop_idle_noop_never_raises ⟨some TaskStatus.done, some [], none⟩
    StopEnv.softTimeout).1 (Or.inl (by decide))

/-- Claim C9: call_tool awaits its response future under the 30-unit outer
timeout; when the future is not resolved before that bound, call_tool
raises the timeout RuntimeError, the enqueued call command stays at the
back of the queue (never retracted), and whatever resolution the worker
writes later is unobserved — the caller's outcome is the same for every
late resolution value. -/
theorem outer_timeout_raises_not_retracted (s : ManagerState)
    (q0 : List QueuedCommand) (fs : Option ℚ) (args : ToolArgs)
    (stopEnv : StopEnv) (t : ℚ) (r : Resolution)
    (htask : s.task = some TaskStatus.running)
    (hq : s.requestQueue = some q0)
    (hcheck : (check_hot_reload_file fs s.lastMtime).1 = false)
    (ht : responseTimeout ≤ t) :
    (call_tool s fs args stopEnv (.resolvedAt t r)).1
      = .raised (.runtimeError ("Timeout waiting for response for " ++ toolInfo args))
    ∧ (call_tool s fs args stopEnv (.resolvedAt t r)).2.requestQueue
      = some (q0 ++ [QueuedCommand.callCommand args])
    ∧ (∀ r' : Resolution, (call_tool s fs args stopEnv (.resolvedAt t r')).1
        = (call_tool s fs args stopEnv (.resolvedAt t r)).1)
    ∧ responseTimeout = 30 := by
  have hnl : ¬ t < responseTimeout := not_lt.mpr ht
  refine ⟨?_, ?_, ?_, rfl⟩
  · simp [call_tool, hcheck, htask, hq, hnl]
  · simp [call_tool, hcheck, htask, hq, hnl]
  · intro r'
    simp [call_tool, hcheck, htask, hq, hnl]

/-- Concrete instantiation of the C9 theorem: a running task with an empty
queue, no marker file, and a resolution attempt arriving exactly at the
30-unit bound. -/
theorem outer_timeout_raises_not_retracted_witness :
    (call_tool ⟨some TaskStatus.running, some [], none⟩ none [("subtool", "A")]
        StopEnv.joinOk (.resolvedAt 30 (.ok .boolTrue))).1
      = .raised (.runtimeError ("Timeout waiting for response for " ++ toolInfo [("subtool", "A")]))
    ∧ (call_tool ⟨some TaskStatus.running, some [], none⟩ none [("subtool", "A")]
        StopEnv.joinOk (.resolvedAt 30 (.ok .boolTrue))).2.requestQueue
      = some ([] ++ [QueuedCommand.callCommand [("subtool", "A")]])
    ∧ (∀ r' : Resolution,
        (call_tool ⟨some TaskStatus.running, some [], none⟩ none [("subtool", "A")]
          StopEnv.joinOk (.resolvedAt 30 r')).1
        = (call_tool ⟨some TaskStatus.running, some [], none⟩ none [("subtool", "A")]
            StopEnv.joinOk (.resolvedAt 30 (.ok .boolTrue))).1)
    ∧ responseTimeout = 30 :=
  outer_timeout_raises_not_retracted ⟨some TaskStatus.running, some [], none⟩ []
    none [("subtool", "A")] StopEnv.joinOk 30 (.ok .boolTrue)
    rfl rfl rfl (by decide)

/-- Claim C10: when the worker task is still running but the queue reference
is already cleared, call_tool gets no fresh queue from the start step and
raises the missing-queue RuntimeError, leaving the queue reference none. -/
theorem queue_none_raises (s : ManagerState) (fs : Option ℚ) (args : ToolArgs)
    (stopEnv : StopEnv) (awaitEnv : AwaitEnv)
    (htask : s.task = some TaskStatus.running)
    (hq : s.requestQueue = none) :
    (call_tool s fs args stopEnv awaitEnv).1
      = .raised (.runtimeError "Request queue is None after starting the task")
    ∧ (call_tool s fs args stopEnv awaitEnv).2.requestQueue = none := by
  constructor
  · simp [call_tool, stop, start, htask, hq]
  · simp [call_tool, stop, start, htask, hq]

/-- Concrete instantiation of the C10 theorem: a running task whose queue
reference was cleared, with the marker file untouched. -/
theorem queue_none_raises_witness :
    (call_tool ⟨some TaskStatus.running, none, none⟩ none [("subtool", "A")]
        StopEnv.joinOk AwaitEnv.never).1
      = .raised (.runtimeError "Request queue is None after starting the task")
    ∧ (call_tool ⟨some TaskStatus.running, none, none⟩ none [("subtool", "A")]
        StopEnv.joinOk AwaitEnv.never).2.requestQueue = none :=
  queue_none_raises ⟨some TaskStatus.running, none, none⟩ none [("subtool", "A")]
    StopEnv.joinOk AwaitEnv.never rfl rfl

end HotReload
